import Mathlib

/-!
Verification of the GitHub issue-triage service (`main.go`).

The Go source is shallowly embedded: Go strings that the response
synthesizer scans are modelled as `List Char` (every marker the code
scans for is ASCII, and in UTF-8 an ASCII pattern occurs as a byte
substring exactly where it occurs as a character substring, so the
character-level model is observationally faithful to Go's byte-level
`strings.Index` / `strings.IndexAny` / slicing on all inputs).  The raw
`error_log` field, whose byte length the handler slices, is modelled as
a list of bytes (`List Nat`).  Dynamically typed JSON argument values
(`map[string]any`) are modelled by the inductive `GoValue`, with Go
type assertions `v.(string)` / `v.([]any)` as `Option`-returning
projections.  External collaborators (the swarmlet reasoning pipeline
and the GitHub client) appear only through their results: the pipeline
as an `Except` value and the gateway calls as constructors of outcome
types, so "the gateway is invoked with these arguments" is directly
observable in the model.
-/

/-- `startsWithChars pat s` is true iff `pat` is a prefix of `s`
(the character-level analogue of Go `strings.HasPrefix`). -/
def startsWithChars : List Char → List Char → Bool
  | [], _ => true
  | _ :: _, [] => false
  | p :: ps, c :: cs => p = c && startsWithChars ps cs

/-- Go `strings.Index s pat`: position of the first occurrence of `pat`
in `s` (`none` for Go's `-1`). -/
def goIndex : List Char → List Char → Option Nat
  | s, pat =>
    if startsWithChars pat s then some 0
    else
      match s with
      | [] => none
      | _ :: t => (goIndex t pat).map (· + 1)

/-- Go `strings.Contains s pat` (implemented in Go as `Index >= 0`). -/
def goContains (s pat : List Char) : Bool :=
  (goIndex s pat).isSome

/-- Go `strings.IndexAny s " \n"`: position of the first space or
newline character. -/
def goIndexAnyWS : List Char → Option Nat
  | [] => none
  | c :: t => if c = ' ' || c = '\n' then some 0 else (goIndexAnyWS t).map (· + 1)

/-- ASCII whitespace, the fragment of Go `unicode.IsSpace` relevant to
the strings this program manipulates. -/
def isGoSpace (c : Char) : Bool :=
  c = ' ' || c = '\t' || c = '\n' || c = '\r' || c = '\x0b' || c = '\x0c'

/-- Drop leading whitespace. -/
def trimLeftWS : List Char → List Char
  | [] => []
  | c :: t => if isGoSpace c then trimLeftWS t else c :: t

/-- Go `strings.TrimSpace`. -/
def goTrimSpace (s : List Char) : List Char :=
  ((trimLeftWS s).reverse |> trimLeftWS).reverse

/-- The `APIResponse` struct of `main.go`.  `issueURL` models the
`IssueURL string` field with `omitempty`: the empty list is Go's `""`,
which the JSON encoder omits, so `issueURL = []` is "absent from the
response". -/
structure APIResponse where
  status : String
  message : List Char
  issueURL : List Char
  deriving DecidableEq, Repr

/-- The literal marker `"URL: "` scanned for by `handleProcessError`. -/
def urlMarker : List Char := "URL: ".toList

/-- The literal marker `"GitHub issue created successfully!"`. -/
def createdMarker : List Char := "GitHub issue created successfully!".toList

/-- The literal marker `"Found existing issues:"`. -/
def foundMarker : List Char := "Found existing issues:".toList

/-- The URL-extraction block of `handleProcessError`: find `"URL: "`,
take the run up to the next space or newline (or to the end), and trim
whitespace.  Returns `[]` (Go `""`) when no `"URL: "` occurs. -/
def extractURL (finalOutput : List Char) : List Char :=
  match goIndex finalOutput urlMarker with
  | none => []
  | some idx =>
    let rest := finalOutput.drop (idx + 5)
    match goIndexAnyWS rest with
    | some endIdx => goTrimSpace (rest.take endIdx)
    | none => goTrimSpace rest

/-- The response-building tail of `handleProcessError`: status is the
literal `"success"`, message is the engine's final output verbatim, and
`issueURL` is extracted only under one of the two literal markers. -/
def synthesize (finalOutput : List Char) : APIResponse :=
  if goContains finalOutput createdMarker then
    ⟨"success", finalOutput, extractURL finalOutput⟩
  else if goContains finalOutput foundMarker then
    ⟨"success", finalOutput, extractURL finalOutput⟩
  else
    ⟨"success", finalOutput, []⟩

/-- One search result from the GitHub gateway (the `Title` and
`HTMLURL` fields read by `searchGithubIssues`). -/
structure GhIssue where
  title : String
  htmlURL : String
  deriving DecidableEq, Repr

/-- The `"- Title: \"<title>\", URL: <url>"` line built for each match
inside `searchGithubIssues`. -/
def formatIssueLine (i : GhIssue) : String :=
  "- Title: \"" ++ i.title ++ "\", URL: " ++ i.htmlURL

/-- The `search_github_issues` tool executor, as a function of the
gateway's result (`ghClient.Search.Issues` is external; its result list
or transport error is the parameter).  `Except.error` is the Go path
that returns a non-nil `error`. -/
def searchGithubIssues (gatewayResult : Except String (List GhIssue)) :
    Except String String :=
  match gatewayResult with
  | .error e => .error ("Error searching GitHub issues: " ++ e)
  | .ok issues =>
    if issues.length = 0 then
      .ok "No existing issues found for this query."
    else
      .ok ("Found " ++ toString issues.length ++ " existing issues:\n" ++
        String.intercalate "\n" (issues.map formatIssueLine))

/-- A dynamically typed Go value (`any`), as far as the tool executors
inspect one: a string, an `[]any` array, or anything else. -/
inductive GoValue where
  | str : String → GoValue
  | arr : List GoValue → GoValue
  | num : Int → GoValue
  | null : GoValue

/-- Lookup in the `map[string]any` arguments map; a missing key is
Go's nil interface value. -/
def lookupArg : List (String × GoValue) → String → Option GoValue
  | [], _ => none
  | (k, v) :: t, key => if k = key then some v else lookupArg t key

/-- Go `args[k].(string)`: `some s` iff the key is present and holds a
string (the two-valued type assertion's `ok`). -/
def argString (args : List (String × GoValue)) (k : String) : Option String :=
  match lookupArg args k with
  | some (.str s) => some s
  | _ => none

/-- Go `args[k].([]any)`: `some l` iff the key is present and holds an
array. -/
def argArr (args : List (String × GoValue)) (k : String) : Option (List GoValue) :=
  match lookupArg args k with
  | some (.arr l) => some l
  | _ => none

/-- The `for _, l := range labelsRaw` loop of `createGithubIssues`:
keep the entries that are strings, in order. -/
def filterStringLabels : List GoValue → List String
  | [] => []
  | .str s :: t => s :: filterStringLabels t
  | _ :: t => filterStringLabels t

/-- What `createGithubIssues` does up to (and including the arguments
of) the external `ghClient.Issues.Create` call: either it returns early
with `("", error)` and never reaches the gateway (`argError`), or it
invokes the gateway with the given title, body and label list
(`gatewayCreate`). -/
inductive CreateOutcome where
  | argError : String → CreateOutcome
  | gatewayCreate : String → String → List String → CreateOutcome
  deriving DecidableEq, Repr

/-- The `create_github_issue` tool executor of `main.go`, embedded up
to the gateway call. -/
def createGithubIssues (args : List (String × GoValue)) : CreateOutcome :=
  match argString args "title" with
  | none => .argError "missing or invalid 'title' argument for create_github_issue"
  | some title =>
    match argString args "body" with
    | none => .argError "missing or invalid 'body' argument for create_github_issue"
    | some body =>
      let labelsRaw := (argArr args "labels").getD []
      .gatewayCreate title body (filterStringLabels labelsRaw)

/-- The decoded `ErrorLogRequest`; `errorLog` is the raw byte sequence
of the `error_log` JSON string (the handler slices it by bytes). -/
structure ErrorLogRequest where
  errorLog : List Nat
  deriving DecidableEq, Repr

/-- Result of `json.NewDecoder(r.Body).Decode(&req)`: a decode error
(with its message) or a decoded request. -/
inductive DecodeResult where
  | malformed : String → DecodeResult
  | decoded : ErrorLogRequest → DecodeResult
  deriving DecidableEq, Repr

/-- Observable outcome of one `handleProcessError` call.
`badRequest` / `serverError` are the `http.Error` plain-text paths
(400 / 500); `okJSON` is the 200 JSON-encoded `APIResponse` path;
`panicked` is a Go runtime fault (slice bounds out of range), which
aborts the request without any of the above responses. -/
inductive HandlerOutcome where
  | badRequest : String → HandlerOutcome
  | serverError : String → HandlerOutcome
  | okJSON : APIResponse → HandlerOutcome
  | panicked : HandlerOutcome
  deriving DecidableEq, Repr

/-- The HTTP handler `handleProcessError`.  The swarmlet pipeline is
external; `pipeline` is the result of `llmPipeline.Run` for this
request (final answer text or error).  The expression
`"run-id" + req.ErrorLog[:10]` panics whenever the error log is
shorter than 10 bytes, before the pipeline is ever invoked. -/
def handleProcessError (pipeline : Except String (List Char)) :
    DecodeResult → HandlerOutcome
  | .malformed e => .badRequest ("Invalid request body: " ++ e)
  | .decoded req =>
    if req.errorLog = [] then
      .badRequest "Error log cannot be empty"
    else if req.errorLog.length < 10 then
      .panicked
    else
      match pipeline with
      | .error e => .serverError ("Agent failed to process error: " ++ e)
      | .ok finalOutput => .okJSON (synthesize finalOutput)

/-- Go `v.(string)` as a partial projection, for stating which entries
of a labels array survive the string filter. -/
def strOf : GoValue → Option String
  | .str s => some s
  | _ => none

theorem filterStringLabels_eq_filterMap (l : List GoValue) :
    filterStringLabels l = l.filterMap strOf := by
  induction l with
  | nil => rfl
  | cons v t ih => cases v <;> simp [filterStringLabels, strOf, List.filterMap_cons, ih]

theorem extractURL_eq_nil (s : List Char) (h : goContains s urlMarker = false) :
    extractURL s = [] := by
  have h2 : goIndex s urlMarker = none := by
    cases hi : goIndex s urlMarker with
    | none => rfl
    | some v => simp [goContains, hi] at h
  unfold extractURL
  rw [h2]

theorem synthesize_status (out : List Char) : (synthesize out).status = "success" := by
  unfold synthesize
  split
  · rfl
  · split <;> rfl

/-- C1 (defect evaluation): for the 5-byte error log `"short"` — which
is non-empty — the handler faults with a slice-bounds panic from
`req.ErrorLog[:10]` for every possible pipeline behavior, instead of
reaching the 200 (`okJSON`) or 500 (`serverError`) outcome the claim
requires; the pipeline is never invoked. -/
theorem C1_handler_panics_on_short_log :
    ([115, 104, 111, 114, 116] : List Nat) ≠ [] ∧
    ∀ p : Except String (List Char),
      handleProcessError p (.decoded ⟨[115, 104, 111, 114, 116]⟩) = .panicked :=
  ⟨by decide, fun _ => rfl⟩

/-- C2 (defect evaluation): the search executor's one-match output for
a hit at `https://x/42` starts with `"Found 1 existing issues:"` and
contains `"URL: https://x/42"`, yet when that text is the engine's
final answer the synthesizer leaves `issue_url` empty, because the
marker it scans for, `"Found existing issues:"`, is not a substring of
`"Found <n> existing issues:"`. -/
theorem C2_search_answer_url_not_extracted :
    searchGithubIssues (.ok [⟨"T", "https://x/42"⟩]) =
      .ok "Found 1 existing issues:\n- Title: \"T\", URL: https://x/42" ∧
    goContains ("Found 1 existing issues:\n- Title: \"T\", URL: https://x/42".toList)
      urlMarker = true ∧
    goContains ("Found 1 existing issues:\n- Title: \"T\", URL: https://x/42".toList)
      foundMarker = false ∧
    (synthesize ("Found 1 existing issues:\n- Title: \"T\", URL: https://x/42".toList)).issueURL
      = [] :=
  ⟨rfl, rfl, rfl, rfl⟩

/-- C3 counterexample: with labels `["bug", "typo-unlisted"]` the
gateway is called with both labels, even though `"typo-unlisted"` is
outside the enumerated set — the executor performs no enum
filtering, refuting the claim that the gateway receives exactly
`["bug"]`. -/
theorem C3_counterexample :
    createGithubIssues [("title", GoValue.str "T"), ("body", GoValue.str "B"),
        ("labels", GoValue.arr [GoValue.str "bug", GoValue.str "typo-unlisted"])] =
      CreateOutcome.gatewayCreate "T" "B" ["bug", "typo-unlisted"] ∧
    "typo-unlisted" ∉ (["bug", "llm created", "enhancement"] : List String) ∧
    (["bug", "typo-unlisted"] : List String) ≠ ["bug"] :=
  ⟨rfl, by decide, by decide⟩

/-- C3 (amended): the executor passes every string label through to the
gateway verbatim and in order, with no filtering against the enumerated
set; only non-string entries are dropped. -/
theorem C3_labels_passed_through (title body : String) (raw : List GoValue) :
    createGithubIssues [("title", GoValue.str title), ("body", GoValue.str body),
        ("labels", GoValue.arr raw)] =
      CreateOutcome.gatewayCreate title body (raw.filterMap strOf) := by
  have h : createGithubIssues [("title", GoValue.str title), ("body", GoValue.str body),
      ("labels", GoValue.arr raw)] =
      CreateOutcome.gatewayCreate title body (filterStringLabels raw) := rfl
  rw [h, filterStringLabels_eq_filterMap]

/-- C4 counterexample: with `title` present but equal to the empty
string, the executor does not fail — it invokes the gateway with the
empty title, refuting the claim that an empty title yields an
`ArgumentError` without a gateway call. -/
theorem C4_counterexample :
    createGithubIssues [("title", GoValue.str ""), ("body", GoValue.str "b")] =
      CreateOutcome.gatewayCreate "" "b" [] :=
  rfl

/-- C4 (amended): the executor fails with the tool-error result and
does not reach the gateway exactly when `title` or `body` is absent or
not a string; a present title and body — empty strings included — are
accepted and the gateway is invoked with them. -/
theorem C4_missing_args_rejected (args : List (String × GoValue)) :
    (argString args "title" = none →
      createGithubIssues args =
        .argError "missing or invalid 'title' argument for create_github_issue") ∧
    (∀ t, argString args "title" = some t → argString args "body" = none →
      createGithubIssues args =
        .argError "missing or invalid 'body' argument for create_github_issue") ∧
    (∀ t b, argString args "title" = some t → argString args "body" = some b →
      createGithubIssues args =
        .gatewayCreate t b (filterStringLabels ((argArr args "labels").getD []))) := by
  refine ⟨fun h => by simp [createGithubIssues, h],
    fun t h hb => by simp [createGithubIssues, h, hb],
    fun t b h hb => by simp [createGithubIssues, h, hb]⟩

theorem C4_missing_args_rejected_witness :
    createGithubIssues [("body", GoValue.str "b")] =
      .argError "missing or invalid 'title' argument for create_github_issue" ∧
    createGithubIssues [("title", GoValue.str "t")] =
      .argError "missing or invalid 'body' argument for create_github_issue" ∧
    createGithubIssues [("title", GoValue.str ""), ("body", GoValue.str "b"),
        ("labels", GoValue.arr [])] =
      .gatewayCreate "" "b" [] :=
  ⟨(C4_missing_args_rejected _).1 rfl,
   (C4_missing_args_rejected _).2.1 "t" rfl rfl,
   (C4_missing_args_rejected _).2.2 "" "b" rfl rfl⟩

/-- C5: the created-issue answer yields `issueURL = "https://x/42"`,
and any final answer with no `"URL: "` substring yields an empty
(omitted) `issueURL`. -/
theorem C5_url_extraction (s : List Char) (h : goContains s urlMarker = false) :
    (synthesize
        ("GitHub issue created successfully! Title: \"X\", URL: https://x/42".toList)).issueURL
      = "https://x/42".toList ∧
    (synthesize s).issueURL = [] := by
  constructor
  · rfl
  · unfold synthesize
    split
    · exact extractURL_eq_nil s h
    · split
      · exact extractURL_eq_nil s h
      · rfl

theorem C5_url_extraction_witness :
    goContains ("nothing to see here".toList) urlMarker = false ∧
    (synthesize ("nothing to see here".toList)).issueURL = [] :=
  ⟨rfl, (C5_url_extraction ("nothing to see here".toList) rfl).2⟩

/-- C6: whatever list the gateway search returns, the executor returns
`.ok`: the fixed sentence for the empty list, and a count line followed
by the newline-joined `- Title: "<title>", URL: <url>` lines otherwise. -/
theorem C6_search_formatting :
    (∀ l : List GhIssue, ∃ s, searchGithubIssues (.ok l) = .ok s) ∧
    searchGithubIssues (.ok []) = .ok "No existing issues found for this query." ∧
    ∀ (i : GhIssue) (rest : List GhIssue),
      searchGithubIssues (.ok (i :: rest)) =
        .ok ("Found " ++ toString (i :: rest).length ++ " existing issues:\n" ++
          String.intercalate "\n" ((i :: rest).map
            (fun j => "- Title: \"" ++ j.title ++ "\", URL: " ++ j.htmlURL))) := by
  refine ⟨fun l => ?_, rfl, fun i rest => rfl⟩
  cases l with
  | nil => exact ⟨_, rfl⟩
  | cons i rest => exact ⟨_, rfl⟩

/-- C7: a malformed body or an empty `error_log` produces a 400
plain-text response, and the outcome is the same for every pipeline
behavior — the pipeline (and hence any gateway operation, which is
reachable only through it) is never invoked. -/
theorem C7_bad_request (p q : Except String (List Char)) (e : String) :
    handleProcessError p (.malformed e) =
      .badRequest ("Invalid request body: " ++ e) ∧
    handleProcessError p (.decoded ⟨[]⟩) = .badRequest "Error log cannot be empty" ∧
    handleProcessError p (.malformed e) = handleProcessError q (.malformed e) ∧
    handleProcessError p (.decoded ⟨[]⟩) = handleProcessError q (.decoded ⟨[]⟩) :=
  ⟨rfl, rfl, rfl, rfl⟩

/-- C8: on the successful path the handler responds with
`synthesize finalOutput`, whose `message` field is the engine's final
answer verbatim. -/
theorem C8_message_verbatim (out : List Char) (req : ErrorLogRequest)
    (hlen : 10 ≤ req.errorLog.length) :
    (synthesize out).message = out ∧
    handleProcessError (.ok out) (.decoded req) = .okJSON (synthesize out) := by
  constructor
  · unfold synthesize
    split
    · rfl
    · split <;> rfl
  · have h1 : ¬ req.errorLog = [] := by
      intro he
      rw [he] at hlen
      simp at hlen
    have h2 : ¬ req.errorLog.length < 10 := by omega
    simp only [handleProcessError]
    rw [if_neg h1, if_neg h2]

theorem C8_message_verbatim_witness :
    10 ≤ ([0, 1, 2, 3, 4, 5, 6, 7, 8, 9] : List Nat).length ∧
    (synthesize "done".toList).message = "done".toList ∧
    handleProcessError (.ok "done".toList) (.decoded ⟨[0, 1, 2, 3, 4, 5, 6, 7, 8, 9]⟩) =
      .okJSON (synthesize "done".toList) :=
  ⟨by decide,
   (C8_message_verbatim "done".toList ⟨[0, 1, 2, 3, 4, 5, 6, 7, 8, 9]⟩ (by decide)).1,
   (C8_message_verbatim "done".toList ⟨[0, 1, 2, 3, 4, 5, 6, 7, 8, 9]⟩ (by decide)).2⟩

/-- C9: every JSON response the handler emits has status `"success"`;
the `400` / `500` / panic paths are plain-text (non-`okJSON`) outcomes,
so no JSON body ever carries the `"error"` status. -/
theorem C9_status_always_success (p : Except String (List Char)) (d : DecodeResult)
    (r : APIResponse) (h : handleProcessError p d = .okJSON r) :
    r.status = "success" := by
  cases d with
  | malformed e => simp [handleProcessError] at h
  | decoded req =>
    simp only [handleProcessError] at h
    by_cases he : req.errorLog = []
    · rw [if_pos he] at h
      exact absurd h (by simp)
    · rw [if_neg he] at h
      by_cases hl : req.errorLog.length < 10
      · rw [if_pos hl] at h
        exact absurd h (by simp)
      · rw [if_neg hl] at h
        cases p with
        | error e => exact absurd h (by simp)
        | ok out =>
          have h2 : synthesize out = r := by injection h
          rw [← h2]
          exact synthesize_status out

theorem C9_status_always_success_witness :
    (synthesize "x".toList).status = "success" :=
  C9_status_always_success (.ok "x".toList)
    (.decoded ⟨[0, 1, 2, 3, 4, 5, 6, 7, 8, 9]⟩) (synthesize "x".toList) rfl

/-- C10: a missing or non-array `labels` argument is tolerated — the
gateway is called with the empty label list — and non-string entries
inside a supplied array are dropped (exactly the string entries, in
order, reach the gateway). -/
theorem C10_labels_tolerant (args : List (String × GoValue)) (t b : String)
    (hT : argString args "title" = some t) (hB : argString args "body" = some b) :
    (argArr args "labels" = none → createGithubIssues args = .gatewayCreate t b []) ∧
    (∀ raw, argArr args "labels" = some raw →
      createGithubIssues args = .gatewayCreate t b (raw.filterMap strOf)) := by
  constructor
  · intro h
    simp [createGithubIssues, hT, hB, h, filterStringLabels]
  · intro raw h
    simp [createGithubIssues, hT, hB, h, filterStringLabels_eq_filterMap]

theorem C10_labels_tolerant_witness :
    createGithubIssues [("title", GoValue.str "T"), ("body", GoValue.str "B")] =
      .gatewayCreate "T" "B" [] ∧
    createGithubIssues [("title", GoValue.str "T"), ("body", GoValue.str "B"),
        ("labels", GoValue.num 3)] = .gatewayCreate "T" "B" [] ∧
    createGithubIssues [("title", GoValue.str "T"), ("body", GoValue.str "B"),
        ("labels", GoValue.arr [GoValue.str "bug", GoValue.num 3, GoValue.null])] =
      .gatewayCreate "T" "B" ["bug"] :=
  ⟨(C10_labels_tolerant [("title", GoValue.str "T"), ("body", GoValue.str "B")]
      "T" "B" rfl rfl).1 rfl,
   (C10_labels_tolerant [("title", GoValue.str "T"), ("body", GoValue.str "B"),
      ("labels", GoValue.num 3)] "T" "B" rfl rfl).1 rfl,
   (C10_labels_tolerant [("title", GoValue.str "T"), ("body", GoValue.str "B"),
      ("labels", GoValue.arr [GoValue.str "bug", GoValue.num 3, GoValue.null])]
      "T" "B" rfl rfl).2 [GoValue.str "bug", GoValue.num 3, GoValue.null] rfl⟩
